import Mathlib

/-!
Verification development for the kitchen_sync database-client core
(src/src/ks_mysql.cpp, src/src/ks_postgresql.cpp).

The schema model (Column, Key, Table, Database) is shared by both engine
clients.  The struct fields are taken from how the two engine files use
them; the parts that live in the header database_client.h (which is not
among the analysed files) are modelled from the spec and marked as such
in their doc comments.
-/

namespace KitchenSync

/-- A column of a table: only the name is recorded (ks_mysql.cpp line 197,
ks_postgresql.cpp line 195). -/
structure Column where
  name : String
deriving DecidableEq

/-- A named index/constraint other than the primary key: name, uniqueness
flag and the ordered column indices (used at ks_mysql.cpp lines 220-223,
ks_postgresql.cpp lines 226-229). -/
structure Key where
  name : String
  unique : Bool
  columns : List Nat
deriving DecidableEq

/-- A table: name, ordered columns, primary-key column indices and the
other keys (fields as used throughout both listers). -/
structure Table where
  name : String
  columns : List Column
  primary_key_columns : List Nat
  keys : List Key
deriving DecidableEq

/-- The database: an ordered sequence of tables
(pushed at ks_mysql.cpp line 266, ks_postgresql.cpp line 298). -/
structure Database where
  tables : List Table
deriving DecidableEq

/-- Modelled from the spec: Table::index_of_column lives in
database_client.h, which is not among the analysed files.  Per the spec,
a column is referenced by its index in the owning table's ordered column
sequence, so the lookup returns the position of the named column. -/
def index_of_column (columns : List Column) (name : String) : Nat :=
  columns.findIdx (fun c => c.name = name)

/-- Reading field i of a catalog row, as row.string_at(i) does on rows
whose fields are all non-NULL strings. -/
def string_at (row : List String) (i : Nat) : String :=
  row.getD i ""

/-- Modelled from the spec: Key::operator< lives in database_client.h,
which is not among the analysed files.  The spec states that keys are
ordered by key name (the engine-neutral identifier), so the sort at
ks_mysql.cpp line 254 / ks_postgresql.cpp line 286 sorts keys by name. -/
def keyNameLe (a b : Key) : Prop := a.name ≤ b.name

instance : DecidableRel keyNameLe := fun a b =>
  inferInstanceAs (Decidable (a.name ≤ b.name))

instance : IsTotal Key keyNameLe := ⟨fun a b => le_total a.name b.name⟩

instance : IsTrans Key keyNameLe := ⟨fun _ _ _ h h2 => le_trans h h2⟩

/-- The sort of table.keys performed by both table listers
(ks_mysql.cpp line 254, ks_postgresql.cpp line 286): keys ordered by
name (see keyNameLe). -/
def ksSortKeys (keys : List Key) : List Key :=
  keys.insertionSort keyNameLe

/-- The qualification test of the surrogate loop (ks_mysql.cpp line 257,
ks_postgresql.cpp line 289): the key is unique and was never recorded in
the unique-but-nullable set. -/
def surrogateEligible (unique_but_nullable_keys : List String) (k : Key) : Bool :=
  k.unique && !(unique_but_nullable_keys.contains k.name)

/-- The surrogate-primary-key loop shared by both table listers
(ks_mysql.cpp lines 256-260, ks_postgresql.cpp lines 288-292): walk the
keys while primary_key_columns is empty; the first eligible key (see
surrogateEligible) supplies its columns. -/
def surrogateLoop : List Key → List String → List Nat → List Nat
  | [], _, pk => pk
  | key :: rest, unique_but_nullable_keys, pk =>
    if pk = [] then
      if surrogateEligible unique_but_nullable_keys key then
        surrogateLoop rest unique_but_nullable_keys key.columns
      else
        surrogateLoop rest unique_but_nullable_keys pk
    else pk

/-- Tail of both table listers once the column and key listers have run
(ks_mysql.cpp lines 253-266, ks_postgresql.cpp lines 285-298): sort the
keys by name, run the surrogate loop, raise a schema error naming the
table when no primary key was derived, otherwise push the finished table
onto database.tables. -/
def tableListerFinish (db : Database) (t : Table)
    (unique_but_nullable_keys : List String) : Except String Database :=
  if surrogateLoop (ksSortKeys t.keys) unique_but_nullable_keys t.primary_key_columns = [] then
    Except.error ("Couldn\x27t find a primary or non-nullable unique key on table " ++ t.name)
  else
    Except.ok { tables := db.tables ++ [{ t with
      keys := ksSortKeys t.keys,
      primary_key_columns := surrogateLoop (ksSortKeys t.keys) unique_but_nullable_keys t.primary_key_columns }] }

/-- One row of PostgreSQLPrimaryKeyLister (ks_postgresql.cpp lines
202-212): look the reported column name (field 0) up in the table's
column sequence and append its index to primary_key_columns. -/
def postgreSQLPrimaryKeyListerStep (t : Table) (row : List String) : Table :=
  { t with primary_key_columns :=
      t.primary_key_columns ++ [index_of_column t.columns (string_at row 0)] }

/-- PostgreSQLPrimaryKeyLister run over all rows of the primary-key
catalog query, in arrival order. -/
def postgreSQLPrimaryKeyLister (t : Table) (rows : List (List String)) : Table :=
  rows.foldl postgreSQLPrimaryKeyListerStep t

/-- State of MySQLKeyLister (ks_mysql.cpp lines 204-239): the table
being built and the set of key names recorded as unique-but-nullable. -/
structure MySQLKeyListerState where
  table : Table
  unique_but_nullable_keys : List String
deriving DecidableEq

/-- table.keys.back().columns.push_back(column_index)
(ks_mysql.cpp line 223): append a column index to the last key. -/
def appendToLastKey (keys : List Key) (column_index : Nat) : List Key :=
  match keys with
  | [] => []
  | [k] => [{ k with columns := k.columns ++ [column_index] }]
  | k :: rest => k :: appendToLastKey rest column_index

/-- One row of MySQLKeyLister (ks_mysql.cpp lines 207-235).  SHOW KEYS
fields used: 1 = non_unique (so "0" means unique), 2 = key name,
4 = column name, 9 = nullable.  A PRIMARY row appends the column index
to primary_key_columns; any other row extends the generic keys,
starting a new key when the name differs from the last one, and while
no primary key has been seen records unique keys with a nullable
column in the unique-but-nullable set. -/
def mySQLKeyListerStep (s : MySQLKeyListerState) (row : List String) : MySQLKeyListerState :=
  if string_at row 2 = "PRIMARY" then
    { s with table := { s.table with primary_key_columns :=
        s.table.primary_key_columns ++ [index_of_column s.table.columns (string_at row 4)] } }
  else
    let unique : Bool := string_at row 1 == "0"
    let key_name := string_at row 2
    let startNewKey : Bool :=
      match s.table.keys.getLast? with
      | none => true
      | some k => k.name != key_name
    let keys1 := if startNewKey then s.table.keys ++ [Key.mk key_name unique []] else s.table.keys
    let keys2 := appendToLastKey keys1 (index_of_column s.table.columns (string_at row 4))
    let nb :=
      if s.table.primary_key_columns = [] ∧ unique = true ∧ string_at row 9 = "YES" then
        if s.unique_but_nullable_keys.contains key_name then s.unique_but_nullable_keys
        else s.unique_but_nullable_keys ++ [key_name]
      else s.unique_but_nullable_keys
    { table := { s.table with keys := keys2 }, unique_but_nullable_keys := nb }

/-- MySQLKeyLister run over all rows of SHOW KEYS, in arrival order. -/
def mySQLKeyLister (s : MySQLKeyListerState) (rows : List (List String)) : MySQLKeyListerState :=
  rows.foldl mySQLKeyListerStep s

/-- MySQLClient::execute (ks_mysql.cpp lines 162-166), parametrized by
the outcome of mysql_real_query: some engine diagnostic when the
statement is rejected, none when it is accepted.  On rejection the
raised error text is the diagnostic, a newline, then the statement. -/
def mysql_execute (real_query_error : Option String) (sql : String) : Except String Unit :=
  match real_query_error with
  | some err => Except.error (err ++ "\n" ++ sql)
  | none => Except.ok ()

/-- MySQLClient::query (ks_mysql.cpp lines 96-116), parametrized by the
outcomes of its two rejection points: mysql_real_query up front, and
mysql_errno after the fetch loop (mysql_fetch_row returns null both on
error and at the end of the rows).  Either rejection raises the engine
diagnostic, a newline, then the statement. -/
def mysql_query (real_query_error : Option String) (fetch_error : Option String)
    (rows : List (List String)) (sql : String) : Except String (List (List String)) :=
  match real_query_error with
  | some err => Except.error (err ++ "\n" ++ sql)
  | none =>
    match fetch_error with
    | some err => Except.error (err ++ "\n" ++ sql)
    | none => Except.ok rows

/-- The libpq result statuses (ExecStatusType) distinguished by the
PostgreSQL client. -/
inductive ExecStatusType where
  | PGRES_EMPTY_QUERY
  | PGRES_COMMAND_OK
  | PGRES_TUPLES_OK
  | PGRES_COPY_OUT
  | PGRES_COPY_IN
  | PGRES_BAD_RESPONSE
  | PGRES_NONFATAL_ERROR
  | PGRES_FATAL_ERROR
deriving DecidableEq

/-- A native libpq result: its status and its rows. -/
structure PGresult where
  status : ExecStatusType
  rows : List (List String)
deriving DecidableEq

/-- PQresultStatus as used through PostgreSQLRes::status
(ks_postgresql.cpp line 16), including the documented libpq behaviour
on a null result handle (e.g. client out-of-memory):
PQresultStatus(NULL) is PGRES_FATAL_ERROR. -/
def pqResultStatus : Option PGresult → ExecStatusType
  | some r => r.status
  | none => ExecStatusType.PGRES_FATAL_ERROR

/-- PostgreSQLClient::execute (ks_postgresql.cpp lines 145-151): any
result whose status is not PGRES_COMMAND_OK raises the engine
diagnostic, a newline, then the statement. -/
def postgresql_execute (res : Option PGresult) (error_message sql : String) :
    Except String Unit :=
  if pqResultStatus res ≠ ExecStatusType.PGRES_COMMAND_OK then
    Except.error (error_message ++ "\n" ++ sql)
  else
    Except.ok ()

/-- PostgreSQLClient::query (ks_postgresql.cpp lines 92-105): any
result whose status is not PGRES_TUPLES_OK raises the engine
diagnostic, a newline, then the statement; otherwise the rows are
handed to the row handler in order. -/
def postgresql_query (res : Option PGresult) (error_message sql : String) :
    Except String (List (List String)) :=
  if pqResultStatus res ≠ ExecStatusType.PGRES_TUPLES_OK then
    Except.error (error_message ++ "\n" ++ sql)
  else
    Except.ok (match res with | some r => r.rows | none => [])

/-- Whether an Except-returning operation succeeded. -/
def exceptSucceeded {α : Type} : Except String α → Bool
  | Except.ok _ => true
  | Except.error _ => false

/-- The MySQL connection as seen by the unbuffered fetch model: the
rows of the current result set still waiting unread on the wire. -/
structure MySQLConnState where
  pending_rows : List (List String)
deriving DecidableEq

/-- The drain loop of MySQLRes::~MySQLRes (ks_mysql.cpp line 35): call
mysql_fetch_row, which pops the next pending row, until it returns
null, throwing every fetched row away. -/
def drainRemainingRows : List (List String) → List (List String)
  | [] => []
  | _ :: rest => drainRemainingRows rest

/-- MySQLRes::~MySQLRes (ks_mysql.cpp lines 33-38) acting on the
connection state: when the native result is non-null, every remaining
unread row is fetched and discarded before mysql_free_result; a null
result is released without touching the connection. -/
def mySQLResDispose (res_nonnull : Bool) (c : MySQLConnState) : MySQLConnState :=
  if res_nonnull then { pending_rows := drainRemainingRows c.pending_rows } else c

/-- Modelled from the spec and the comment at ks_mysql.cpp line 35:
rows left unread on the connection are returned in the next requested
result set, so the next query answers with the stale pending rows
followed by its own fresh rows. -/
def mysqlNextQueryRows (c : MySQLConnState) (fresh_rows : List (List String)) :
    List (List String) :=
  c.pending_rows ++ fresh_rows

/-- The MySQL version constant from ks_mysql.cpp line 10. -/
def MYSQL_5_6_5 : Nat := 50605

/-- MySQLClient::start_transaction (ks_mysql.cpp lines 168-171): the
two statements executed, as a function of the server version reported
by mysql_get_server_version and of the readonly/snapshot flags. -/
def mysql_start_transaction (server_version : Nat) (readonly snapshot : Bool) :
    List String :=
  [ if snapshot then "SET TRANSACTION ISOLATION LEVEL REPEATABLE READ"
    else "SET TRANSACTION ISOLATION LEVEL READ COMMITTED",
    if readonly = true ∧ MYSQL_5_6_5 ≤ server_version then "START TRANSACTION READ ONLY"
    else "START TRANSACTION" ]

/-- PostgreSQLClient::start_transaction (ks_postgresql.cpp lines
153-159): the single statement executed. -/
def postgresql_start_transaction (readonly snapshot : Bool) : List String :=
  if snapshot then
    [ if readonly then "START TRANSACTION READ ONLY ISOLATION LEVEL REPEATABLE READ"
      else "START TRANSACTION ISOLATION LEVEL REPEATABLE READ" ]
  else
    [ if readonly then "START TRANSACTION READ ONLY ISOLATION LEVEL READ COMMITTED"
      else "START TRANSACTION ISOLATION LEVEL READ COMMITTED" ]

/-- Modelled from the spec: mysql_real_escape_string (client library,
not part of this repository) writes, for each input byte, either the
byte itself or a two-byte escape sequence (backslash then the escape
letter: NUL, newline, carriage return, Ctrl-Z, backslash, single quote
and double quote are escaped), and reports the number of bytes used. -/
def mysql_escaped_byte (b : Nat) : List Nat :=
  if b = 0 then [92, 48]
  else if b = 10 then [92, 110]
  else if b = 13 then [92, 114]
  else if b = 26 then [92, 90]
  else if b = 92 then [92, 92]
  else if b = 39 then [92, 39]
  else if b = 34 then [92, 34]
  else [b]

/-- The full byte sequence the MySQL escaping routine writes. -/
def mysql_engine_escape (value : List Nat) : List Nat :=
  (value.map mysql_escaped_byte).flatten

/-- Modelled from the spec: PQescapeStringConn (client library, not
part of this repository) doubles single-quote and backslash bytes and
reports the number of bytes used. -/
def postgresql_escaped_byte (b : Nat) : List Nat :=
  if b = 39 then [39, 39]
  else if b = 92 then [92, 92]
  else [b]

/-- The full byte sequence the PostgreSQL escaping routine writes. -/
def postgresql_engine_escape (value : List Nat) : List Nat :=
  (value.map postgresql_escaped_byte).flatten

/-- escape_value, same shape on both engines (ks_mysql.cpp lines
185-191, ks_postgresql.cpp lines 183-189): resize the result buffer to
value.size()*2 + 1 bytes, let the engine routine write the escaped
bytes into it and report the used length, then resize the result down
to that used length. -/
def escape_value (engine_escape : List Nat → List Nat) (value : List Nat) : List Nat :=
  ((engine_escape value
      ++ (List.replicate (value.length * 2 + 1) 0).drop (engine_escape value).length).take
    (value.length * 2 + 1)).take (engine_escape value).length

/-- Modelled from the C library: atoi on a string whose first
character is a decimal digit yields the value of the maximal leading
run of digits (MySQLClient::MySQLClient only calls it on such
strings). -/
def atoi (s : String) : Nat :=
  (s.toList.takeWhile (fun c => decide ('0' ≤ c ∧ c ≤ '9'))).foldl
    (fun n c => 10 * n + (c.toNat - 48)) 0

/-- The port/socket selection of MySQLClient::MySQLClient
(ks_mysql.cpp lines 134-143): a null or empty string leaves port 0 and
no socket; otherwise, when the first character is a decimal digit the
string is given to atoi and used as the port, and any other string is
used as the unix-socket path. -/
def mysql_parse_port_or_socket (database_port : Option String) : Nat × Option String :=
  match database_port with
  | none => (0, none)
  | some s =>
    match s.toList with
    | [] => (0, none)
    | c :: _ => if '0' ≤ c ∧ c ≤ '9' then (atoi s, none) else (0, some s)

/-- A native MySQL result handle: its rows and field count. -/
structure MySQLNativeRes where
  rows : List (List String)
  fields : Nat
deriving DecidableEq

/-- Outcome of running MySQLRes::MySQLRes. -/
inductive MySQLResConstruction where
  | ok (n_tuples n_columns : Nat)
  | null_handle_use
deriving DecidableEq

/-- MySQLRes::MySQLRes (ks_mysql.cpp lines 27-31): the handle returned
by mysql_store_result or mysql_use_result is passed straight to
mysql_num_rows and mysql_num_fields with no null check, so on a null
handle (e.g. client out-of-memory) those calls use the null pointer
(undefined behaviour) instead of raising an error. -/
def mySQLResConstruct (res : Option MySQLNativeRes) : MySQLResConstruction :=
  match res with
  | some r => MySQLResConstruction.ok r.rows.length r.fields
  | none => MySQLResConstruction.null_handle_use

theorem surrogateLoop_of_ne_nil (keys : List Key) (nb : List String)
    (pk : List Nat) (h : pk ≠ []) : surrogateLoop keys nb pk = pk := by
  cases keys with
  | nil => rfl
  | cons k rest => simp [surrogateLoop, h]

theorem surrogateLoop_of_find_some (keys : List Key) (nb : List String) (k : Key)
    (hfind : keys.find? (surrogateEligible nb) = some k) (hne : k.columns ≠ []) :
    surrogateLoop keys nb [] = k.columns := by
  induction keys with
  | nil => simp at hfind
  | cons x rest ih =>
    by_cases hq : surrogateEligible nb x = true
    · rw [List.find?_cons_of_pos _ hq] at hfind
      cases hfind
      simp only [surrogateLoop, if_pos rfl, hq, if_true]
      exact surrogateLoop_of_ne_nil _ _ _ hne
    · rw [List.find?_cons_of_neg _ hq] at hfind
      have hq' : surrogateEligible nb x = false := by simpa using hq
      simp only [surrogateLoop, if_pos rfl, hq', Bool.false_eq_true, if_false]
      exact ih hfind

theorem surrogateLoop_of_find_none (keys : List Key) (nb : List String)
    (hfind : keys.find? (surrogateEligible nb) = none) :
    surrogateLoop keys nb [] = [] := by
  induction keys with
  | nil => rfl
  | cons x rest ih =>
    by_cases hq : surrogateEligible nb x = true
    · rw [List.find?_cons_of_pos _ hq] at hfind
      simp at hfind
    · rw [List.find?_cons_of_neg _ hq] at hfind
      have hq' : surrogateEligible nb x = false := by simpa using hq
      simp only [surrogateLoop, if_pos rfl, hq', Bool.false_eq_true, if_false]
      exact ih hfind

/-- C1: for a table for which the engine reports no explicit primary key
(primary_key_columns still empty when the table lister reaches the
derivation step), the finished table has its keys sorted by name and its
primary_key_columns equal to the columns of the first name-sorted key
that is unique and was never recorded in the unique-but-nullable set;
no later key and no ineligible key is chosen (the choice is the
List.find? of the eligibility predicate over the sorted keys). -/
theorem surrogate_primary_key_first_eligible
    (db : Database) (t : Table) (nb : List String) (k : Key)
    (hnopk : t.primary_key_columns = [])
    (hcols : ∀ k2 ∈ t.keys, k2.columns ≠ [])
    (hfind : (ksSortKeys t.keys).find? (surrogateEligible nb) = some k) :
    List.Sorted keyNameLe (ksSortKeys t.keys)
    ∧ tableListerFinish db t nb =
        Except.ok ⟨db.tables ++ [{ t with keys := ksSortKeys t.keys, primary_key_columns := k.columns }]⟩ := by
  refine ⟨List.sorted_insertionSort keyNameLe t.keys, ?_⟩
  have hmem : k ∈ ksSortKeys t.keys := List.mem_of_find?_eq_some hfind
  have hmem2 : k ∈ t.keys := (List.perm_insertionSort keyNameLe t.keys).mem_iff.mp hmem
  have hkcols : k.columns ≠ [] := hcols k hmem2
  have hloop : surrogateLoop (ksSortKeys t.keys) nb t.primary_key_columns = k.columns := by
    rw [hnopk]
    exact surrogateLoop_of_find_some _ _ _ hfind hkcols
  unfold tableListerFinish
  rw [hloop, if_neg hkcols]

/-- Witness for C1: the spec scenario table (sessions, with a nullable
unique key on token and a non-nullable unique key on user_id/device_id)
resolves its surrogate primary key to the user_id/device_id columns. -/
theorem surrogate_primary_key_first_eligible_witness :
    ((Table.mk "sessions" [⟨"token"⟩, ⟨"user_id"⟩, ⟨"device_id"⟩] []
        [⟨"user_device_key", true, [1, 2]⟩, ⟨"token_key", true, [0]⟩]).primary_key_columns = []
     ∧ (∀ k2 ∈ (Table.mk "sessions" [⟨"token"⟩, ⟨"user_id"⟩, ⟨"device_id"⟩] []
          [⟨"user_device_key", true, [1, 2]⟩, ⟨"token_key", true, [0]⟩]).keys, k2.columns ≠ [])
     ∧ (ksSortKeys [⟨"user_device_key", true, [1, 2]⟩, ⟨"token_key", true, [0]⟩]).find?
         (surrogateEligible ["token_key"]) = some ⟨"user_device_key", true, [1, 2]⟩)
    ∧ (List.Sorted keyNameLe (ksSortKeys [⟨"user_device_key", true, [1, 2]⟩, ⟨"token_key", true, [0]⟩])
       ∧ tableListerFinish ⟨[]⟩
           (Table.mk "sessions" [⟨"token"⟩, ⟨"user_id"⟩, ⟨"device_id"⟩] []
             [⟨"user_device_key", true, [1, 2]⟩, ⟨"token_key", true, [0]⟩]) ["token_key"] =
         Except.ok ⟨[] ++ [{ Table.mk "sessions" [⟨"token"⟩, ⟨"user_id"⟩, ⟨"device_id"⟩] []
             [⟨"user_device_key", true, [1, 2]⟩, ⟨"token_key", true, [0]⟩] with
             keys := ksSortKeys [⟨"user_device_key", true, [1, 2]⟩, ⟨"token_key", true, [0]⟩],
             primary_key_columns := (Key.mk "user_device_key" true [1, 2]).columns }]⟩) :=
  have hfind : (ksSortKeys [⟨"user_device_key", true, [1, 2]⟩, ⟨"token_key", true, [0]⟩]).find?
      (surrogateEligible ["token_key"]) = some ⟨"user_device_key", true, [1, 2]⟩ := by
    have h : ksSortKeys [⟨"user_device_key", true, [1, 2]⟩, ⟨"token_key", true, [0]⟩]
        = [⟨"token_key", true, [0]⟩, ⟨"user_device_key", true, [1, 2]⟩] := by
      simp only [ksSortKeys, List.insertionSort, List.orderedInsert, keyNameLe]
      norm_num [String.le_iff_toList_le, String.toList]
      decide
    rw [h]
    decide
  ⟨⟨rfl, by decide, hfind⟩,
    surrogate_primary_key_first_eligible ⟨[]⟩
      (Table.mk "sessions" [⟨"token"⟩, ⟨"user_id"⟩, ⟨"device_id"⟩] []
        [⟨"user_device_key", true, [1, 2]⟩, ⟨"token_key", true, [0]⟩])
      ["token_key"] ⟨"user_device_key", true, [1, 2]⟩ rfl (by decide) hfind⟩

/-- C2: for a table with no explicit primary key on which no key is
unique-and-never-marked-nullable, the table lister raises the schema
error naming the table and returns no database, so the table is never
pushed onto database.tables. -/
theorem surrogate_primary_key_error
    (db : Database) (t : Table) (nb : List String)
    (hnopk : t.primary_key_columns = [])
    (hnoqual : ∀ k ∈ t.keys, k.unique = true → nb.contains k.name = true) :
    tableListerFinish db t nb =
      Except.error ("Couldn\x27t find a primary or non-nullable unique key on table " ++ t.name) := by
  have hfind : (ksSortKeys t.keys).find? (surrogateEligible nb) = none := by
    rw [List.find?_eq_none]
    intro k hk
    have hk2 : k ∈ t.keys := (List.perm_insertionSort keyNameLe t.keys).mem_iff.mp hk
    simp only [surrogateEligible, Bool.and_eq_true, Bool.not_eq_true', not_and]
    intro hu
    simpa using hnoqual k hk2 hu
  have hloop : surrogateLoop (ksSortKeys t.keys) nb t.primary_key_columns = [] := by
    rw [hnopk]
    exact surrogateLoop_of_find_none _ _ hfind
  unfold tableListerFinish
  rw [hloop]
  simp

/-- Witness for C2: a table whose only unique key was recorded as
unique-but-nullable fails population with the schema error naming it. -/
theorem surrogate_primary_key_error_witness :
    ((Table.mk "audit_log" [⟨"token"⟩] [] [⟨"token_key", true, [0]⟩]).primary_key_columns = []
     ∧ (∀ k ∈ (Table.mk "audit_log" [⟨"token"⟩] [] [⟨"token_key", true, [0]⟩]).keys,
          k.unique = true → (["token_key"] : List String).contains k.name = true))
    ∧ tableListerFinish ⟨[]⟩ (Table.mk "audit_log" [⟨"token"⟩] [] [⟨"token_key", true, [0]⟩]) ["token_key"] =
        Except.error ("Couldn\x27t find a primary or non-nullable unique key on table "
          ++ (Table.mk "audit_log" [⟨"token"⟩] [] [⟨"token_key", true, [0]⟩]).name) :=
  ⟨⟨rfl, by decide⟩,
    surrogate_primary_key_error ⟨[]⟩ (Table.mk "audit_log" [⟨"token"⟩] [] [⟨"token_key", true, [0]⟩])
      ["token_key"] rfl (by decide)⟩

theorem postgreSQLPrimaryKeyLister_fold (t : Table) (rows : List (List String)) :
    (postgreSQLPrimaryKeyLister t rows).primary_key_columns
      = t.primary_key_columns ++ rows.map (fun r => index_of_column t.columns (string_at r 0))
    ∧ (postgreSQLPrimaryKeyLister t rows).columns = t.columns := by
  induction rows generalizing t with
  | nil => simp [postgreSQLPrimaryKeyLister]
  | cons r rest ih =>
    have hstep := ih (postgreSQLPrimaryKeyListerStep t r)
    simp only [postgreSQLPrimaryKeyLister, List.foldl_cons] at hstep ⊢
    refine ⟨?_, by rw [hstep.2]; rfl⟩
    rw [hstep.1]
    simp [postgreSQLPrimaryKeyListerStep, List.append_assoc]

theorem mySQLKeyListerStep_columns (s : MySQLKeyListerState) (row : List String) :
    (mySQLKeyListerStep s row).table.columns = s.table.columns := by
  unfold mySQLKeyListerStep
  by_cases h : string_at row 2 = "PRIMARY" <;> simp [h]

theorem mySQLKeyListerStep_pk (s : MySQLKeyListerState) (row : List String) :
    (mySQLKeyListerStep s row).table.primary_key_columns =
      if string_at row 2 = "PRIMARY"
      then s.table.primary_key_columns ++ [index_of_column s.table.columns (string_at row 4)]
      else s.table.primary_key_columns := by
  unfold mySQLKeyListerStep
  by_cases h : string_at row 2 = "PRIMARY" <;> simp [h]

theorem mySQLKeyLister_fold (s : MySQLKeyListerState) (rows : List (List String)) :
    (mySQLKeyLister s rows).table.primary_key_columns
      = s.table.primary_key_columns
        ++ (rows.filter (fun r => string_at r 2 == "PRIMARY")).map
             (fun r => index_of_column s.table.columns (string_at r 4))
    ∧ (mySQLKeyLister s rows).table.columns = s.table.columns := by
  induction rows generalizing s with
  | nil => simp [mySQLKeyLister]
  | cons r rest ih =>
    have hstep := ih (mySQLKeyListerStep s r)
    simp only [mySQLKeyLister, List.foldl_cons] at hstep ⊢
    have hcols := mySQLKeyListerStep_columns s r
    have hpk := mySQLKeyListerStep_pk s r
    refine ⟨?_, by rw [hstep.2, hcols]⟩
    rw [hstep.1, hpk, hcols]
    by_cases h : string_at r 2 = "PRIMARY"
    · simp [h, List.filter_cons, List.append_assoc]
    · simp [h, List.filter_cons]

/-- C3: when the engine reports primary-key columns for a table whose
primary_key_columns starts empty, both engines record exactly the
reported columns, in catalog order, each turned into its index in the
table's column sequence: on PostgreSQL the dedicated primary-key lister
maps every reported row, and on MySQL the key lister maps exactly the
PRIMARY rows of SHOW KEYS, in arrival order. -/
theorem explicit_primary_key_order
    (t : Table) (pkRows keyRows : List (List String)) (nb0 : List String)
    (hpk : t.primary_key_columns = []) :
    (postgreSQLPrimaryKeyLister t pkRows).primary_key_columns
        = pkRows.map (fun r => index_of_column t.columns (string_at r 0))
    ∧ (mySQLKeyLister ⟨t, nb0⟩ keyRows).table.primary_key_columns
        = (keyRows.filter (fun r => string_at r 2 == "PRIMARY")).map
            (fun r => index_of_column t.columns (string_at r 4)) := by
  constructor
  · rw [(postgreSQLPrimaryKeyLister_fold t pkRows).1, hpk]
    simp
  · rw [(mySQLKeyLister_fold ⟨t, nb0⟩ keyRows).1]
    simp [hpk]

/-- Witness for C3: a two-column table whose engine-reported primary
key is its first column. -/
theorem explicit_primary_key_order_witness :
    ((Table.mk "orders" [⟨"id"⟩, ⟨"total"⟩] [] []).primary_key_columns = [])
    ∧ ((postgreSQLPrimaryKeyLister (Table.mk "orders" [⟨"id"⟩, ⟨"total"⟩] [] []) [["id"]]).primary_key_columns
        = ([["id"]] : List (List String)).map
            (fun r => index_of_column [⟨"id"⟩, ⟨"total"⟩] (string_at r 0))
       ∧ (mySQLKeyLister ⟨Table.mk "orders" [⟨"id"⟩, ⟨"total"⟩] [] [], []⟩
            [["orders", "0", "PRIMARY", "1", "id", "A", "", "", "", ""]]).table.primary_key_columns
        = (([["orders", "0", "PRIMARY", "1", "id", "A", "", "", "", ""]] : List (List String)).filter
             (fun r => string_at r 2 == "PRIMARY")).map
            (fun r => index_of_column [⟨"id"⟩, ⟨"total"⟩] (string_at r 4))) :=
  ⟨rfl, explicit_primary_key_order (Table.mk "orders" [⟨"id"⟩, ⟨"total"⟩] [] [])
    [["id"]] [["orders", "0", "PRIMARY", "1", "id", "A", "", "", "", ""]] [] rfl⟩

/-- C4: every rejection point builds its error text as the engine
diagnostic message, one newline, then the full statement text: the
MySQL execute path, both MySQL query rejection points, the PostgreSQL
execute path, and the PostgreSQL query path. -/
theorem statement_error_text
    (m sql : String) (fe : Option String) (rows : List (List String))
    (res res2 : Option PGresult)
    (hres : pqResultStatus res ≠ ExecStatusType.PGRES_COMMAND_OK)
    (hres2 : pqResultStatus res2 ≠ ExecStatusType.PGRES_TUPLES_OK) :
    mysql_execute (some m) sql = Except.error (m ++ "\n" ++ sql)
    ∧ mysql_query (some m) fe rows sql = Except.error (m ++ "\n" ++ sql)
    ∧ mysql_query none (some m) rows sql = Except.error (m ++ "\n" ++ sql)
    ∧ postgresql_execute res m sql = Except.error (m ++ "\n" ++ sql)
    ∧ postgresql_query res2 m sql = Except.error (m ++ "\n" ++ sql) := by
  refine ⟨rfl, rfl, rfl, ?_, ?_⟩
  · unfold postgresql_execute
    rw [if_pos hres]
  · unfold postgresql_query
    rw [if_pos hres2]

/-- Witness for C4: a concrete rejected statement on each engine path
(on PostgreSQL, an execute whose result has status PGRES_TUPLES_OK and
a query whose result has status PGRES_COMMAND_OK are both rejected). -/
theorem statement_error_text_witness :
    (pqResultStatus (some ⟨ExecStatusType.PGRES_TUPLES_OK, []⟩) ≠ ExecStatusType.PGRES_COMMAND_OK
     ∧ pqResultStatus (some ⟨ExecStatusType.PGRES_COMMAND_OK, []⟩) ≠ ExecStatusType.PGRES_TUPLES_OK)
    ∧ (mysql_execute (some "syntax error") "SELEC 1" =
         Except.error ("syntax error" ++ "\n" ++ "SELEC 1")
       ∧ mysql_query (some "syntax error") none [] "SELEC 1" =
         Except.error ("syntax error" ++ "\n" ++ "SELEC 1")
       ∧ mysql_query none (some "syntax error") [] "SELEC 1" =
         Except.error ("syntax error" ++ "\n" ++ "SELEC 1")
       ∧ postgresql_execute (some ⟨ExecStatusType.PGRES_TUPLES_OK, []⟩) "syntax error" "SELEC 1" =
         Except.error ("syntax error" ++ "\n" ++ "SELEC 1")
       ∧ postgresql_query (some ⟨ExecStatusType.PGRES_COMMAND_OK, []⟩) "syntax error" "SELEC 1" =
         Except.error ("syntax error" ++ "\n" ++ "SELEC 1")) :=
  ⟨⟨by decide, by decide⟩,
    statement_error_text "syntax error" "SELEC 1" none []
      (some ⟨ExecStatusType.PGRES_TUPLES_OK, []⟩) (some ⟨ExecStatusType.PGRES_COMMAND_OK, []⟩)
      (by decide) (by decide)⟩

theorem drainRemainingRows_eq_nil (rows : List (List String)) :
    drainRemainingRows rows = [] := by
  induction rows with
  | nil => rfl
  | cons r rest ih => simpa [drainRemainingRows] using ih

/-- C5: disposing a MySQL result-set guard holding a non-null native
result, on any exit path and however many rows are still unread, drains
every remaining row, so afterwards no pending row is left on the
connection and the next query answers with exactly its own fresh
rows. -/
theorem result_guard_drains_on_dispose
    (c : MySQLConnState) (fresh_rows : List (List String)) :
    (mySQLResDispose true c).pending_rows = []
    ∧ mysqlNextQueryRows (mySQLResDispose true c) fresh_rows = fresh_rows := by
  have h : (mySQLResDispose true c).pending_rows = [] := by
    simp [mySQLResDispose, drainRemainingRows_eq_nil]
  exact ⟨h, by simp [mysqlNextQueryRows, h]⟩

/-- C6: on both engines start_transaction requests repeatable read
exactly when snapshot is set and read committed exactly when it is not,
and issues a true read-only transaction start exactly when readonly is
set and the engine supports it: always on PostgreSQL, and on MySQL only
when the server version is at least 5.6.5 (50605), a plain START
TRANSACTION being issued otherwise. -/
theorem start_transaction_mapping (server_version : Nat) (readonly snapshot : Bool) :
    (∃ iso start, mysql_start_transaction server_version readonly snapshot = [iso, start]
      ∧ (iso = "SET TRANSACTION ISOLATION LEVEL REPEATABLE READ" ↔ snapshot = true)
      ∧ (iso = "SET TRANSACTION ISOLATION LEVEL READ COMMITTED" ↔ snapshot = false)
      ∧ (start = "START TRANSACTION READ ONLY" ↔ (readonly = true ∧ MYSQL_5_6_5 ≤ server_version))
      ∧ (start = "START TRANSACTION" ↔ ¬(readonly = true ∧ MYSQL_5_6_5 ≤ server_version)))
    ∧ (∃ stmt, postgresql_start_transaction readonly snapshot = [stmt]
      ∧ ("START TRANSACTION READ ONLY".toList.isPrefixOf stmt.toList = readonly)
      ∧ ("ISOLATION LEVEL REPEATABLE READ".toList.isSuffixOf stmt.toList = snapshot)
      ∧ ("ISOLATION LEVEL READ COMMITTED".toList.isSuffixOf stmt.toList = !snapshot)) := by
  by_cases hv : MYSQL_5_6_5 ≤ server_version <;>
    cases readonly <;> cases snapshot <;>
      refine ⟨⟨_, _, rfl, ?_, ?_, ?_, ?_⟩, _, rfl, ?_, ?_, ?_⟩ <;>
        simp [mysql_start_transaction, postgresql_start_transaction, hv] <;> decide

theorem mysql_escaped_byte_length (b : Nat) : (mysql_escaped_byte b).length ≤ 2 := by
  unfold mysql_escaped_byte
  split_ifs <;> simp

theorem postgresql_escaped_byte_length (b : Nat) : (postgresql_escaped_byte b).length ≤ 2 := by
  unfold postgresql_escaped_byte
  split_ifs <;> simp

theorem engine_escape_length (eb : Nat → List Nat) (hb : ∀ b, (eb b).length ≤ 2)
    (value : List Nat) : ((value.map eb).flatten).length ≤ 2 * value.length := by
  induction value with
  | nil => simp
  | cons b rest ih =>
    simp only [List.map_cons, List.flatten_cons, List.length_append, List.length_cons]
    have := hb b
    omega

theorem escape_value_eq (engine_escape2 : List Nat → List Nat) (value : List Nat)
    (h : (engine_escape2 value).length ≤ value.length * 2 + 1) :
    escape_value engine_escape2 value = engine_escape2 value := by
  unfold escape_value
  rw [List.take_take, min_eq_left h]
  have : (engine_escape2 value
      ++ (List.replicate (value.length * 2 + 1) 0).drop (engine_escape2 value).length).take
        (engine_escape2 value).length = engine_escape2 value := by
    rw [List.take_left]
  exact this

/-- C7: on either engine, escape_value of any byte sequence returns a
sequence of at most 2*len(value)+1 bytes: the buffer is allocated at
that worst-case size and the result is trimmed to exactly the bytes
the engine escaping routine reports as used. -/
theorem escape_value_bounded (value : List Nat) :
    (escape_value mysql_engine_escape value).length ≤ 2 * value.length + 1
    ∧ escape_value mysql_engine_escape value = mysql_engine_escape value
    ∧ (escape_value postgresql_engine_escape value).length ≤ 2 * value.length + 1
    ∧ escape_value postgresql_engine_escape value = postgresql_engine_escape value := by
  have hm : (mysql_engine_escape value).length ≤ 2 * value.length := by
    unfold mysql_engine_escape
    exact engine_escape_length mysql_escaped_byte mysql_escaped_byte_length value
  have hp : (postgresql_engine_escape value).length ≤ 2 * value.length := by
    unfold postgresql_engine_escape
    exact engine_escape_length postgresql_escaped_byte postgresql_escaped_byte_length value
  have em := escape_value_eq mysql_engine_escape value (by omega)
  have ep := escape_value_eq postgresql_engine_escape value (by omega)
  exact ⟨by rw [em]; omega, em, by rw [ep]; omega, ep⟩

/-- Counterexample to C8 as stated: the string 1x is not numeric, yet
connect uses it as a network port (atoi stops at the first non-digit,
giving port 1) and sets no socket, because the code inspects only the
first character. -/
theorem port_or_socket_counterexample :
    ("1x".toList.all (fun c => decide ('0' ≤ c ∧ c ≤ '9')) = false)
    ∧ mysql_parse_port_or_socket (some "1x") = (1, none) := by
  constructor <;> decide

/-- C8 as amended: a null or empty port_or_socket yields port 0 and no
socket; a non-empty string whose first character is a decimal digit is
passed to atoi (which takes the value of the leading digit run) and
used as the network port with no socket; any other non-empty string is
used as the unix-socket address with port 0. -/
theorem port_or_socket_first_character (s : String) (c : Char) (rest : List Char) :
    (mysql_parse_port_or_socket none = (0, none))
    ∧ (s.toList = [] → mysql_parse_port_or_socket (some s) = (0, none))
    ∧ (s.toList = c :: rest → ('0' ≤ c ∧ c ≤ '9') →
        mysql_parse_port_or_socket (some s) = (atoi s, none))
    ∧ (s.toList = c :: rest → ¬('0' ≤ c ∧ c ≤ '9') →
        mysql_parse_port_or_socket (some s) = (0, some s)) := by
  refine ⟨rfl, ?_, ?_, ?_⟩ <;> intro h <;>
    have h2 : s.data = s.toList := rfl
  · rw [h] at h2
    simp [mysql_parse_port_or_socket, h2]
  · intro hdigit
    rw [h] at h2
    simp [mysql_parse_port_or_socket, h2, hdigit]
  · intro hdigit
    rw [h] at h2
    simp [mysql_parse_port_or_socket, h2, hdigit]

/-- Witness for the amended C8: the digit-first string 8080 becomes
port 8080 with no socket; the non-digit-first string /run/my.sock
becomes the socket with port 0. -/
theorem port_or_socket_first_character_witness :
    ("8080".toList = '8' :: "080".toList
     ∧ mysql_parse_port_or_socket (some "8080") = (atoi "8080", none))
    ∧ ("/run/my.sock".toList = '/' :: "run/my.sock".toList
     ∧ mysql_parse_port_or_socket (some "/run/my.sock") = (0, some "/run/my.sock")) :=
  ⟨⟨by decide, (port_or_socket_first_character "8080" '8' "080".toList).2.2.1
      (by decide) (by decide)⟩,
   ⟨by decide, (port_or_socket_first_character "/run/my.sock" '/' "run/my.sock".toList).2.2.2
      (by decide) (by decide)⟩⟩

/-- C9 evaluated at the failing input: on a null native result handle
(client out-of-memory) the MySQL result-guard construction passes the
null handle to mysql_num_rows and mysql_num_fields (undefined
behaviour, no error raised), whereas the PostgreSQL query path raises
the failure as a fatal error like any query error, since PQresultStatus
of a null result is PGRES_FATAL_ERROR. -/
theorem null_result_handle_behaviour :
    mySQLResConstruct none = MySQLResConstruction.null_handle_use
    ∧ postgresql_query none "out of memory for query result" "SELECT 1"
        = Except.error ("out of memory for query result" ++ "\n" ++ "SELECT 1") :=
  ⟨rfl, rfl⟩

/-- C10: PostgreSQL execute succeeds exactly on a result with status
PGRES_COMMAND_OK (so a row-returning PGRES_TUPLES_OK statement makes
execute raise an error), and the query path succeeds exactly on status
PGRES_TUPLES_OK (so a row-less PGRES_COMMAND_OK completion makes query
raise an error). -/
theorem postgresql_status_check (res : Option PGresult) (err sql : String) :
    (exceptSucceeded (postgresql_execute res err sql) = true
      ↔ pqResultStatus res = ExecStatusType.PGRES_COMMAND_OK)
    ∧ (exceptSucceeded (postgresql_query res err sql) = true
      ↔ pqResultStatus res = ExecStatusType.PGRES_TUPLES_OK) := by
  constructor
  · by_cases h : pqResultStatus res = ExecStatusType.PGRES_COMMAND_OK <;>
      simp [postgresql_execute, exceptSucceeded, h]
  · by_cases h : pqResultStatus res = ExecStatusType.PGRES_TUPLES_OK <;>
      simp [postgresql_query, exceptSucceeded, h]

end KitchenSync
